import Mathlib

/-!
Shallow embedding of the BTC-Oracle core of the my-tensor repository.

The read path lives in web/lib/data/crypto.ts: query functions over the
crypto_metrics store (getCryptoMetrics, getChartData, getLatestPrediction,
getLatestActualPrice, getPredictionHistory) and the pure evaluation
function calculatePerformanceMetrics.  Record types come from
web/lib/supabase/types.ts.

Modelling conventions:
- A calendar date is a natural number (day index); the SQL ordering on the
  date column is the order on that index.  The locale formatting applied by
  formatDate is presentation-only and is modelled as the identity on the
  day index, since no verified property inspects the formatted text.
- A TypeScript number carried by a stored record is a rational; the derived
  performance metrics are reals because rmse takes a square root.
- A Supabase response is either a read failure carrying a message
  (the error branch of the response object) or data that may be null:
  Except QueryError (Option _).  The query combinators .eq, .not-is-null,
  .order and .limit are embedded as filter, sort and take on the store
  contents, which is exactly the contract the tests mock.
- JavaScript Math.round rounds half toward positive infinity, hence
  floor (x + 1/2).
-/

/-- A row of the crypto_metrics table (web/lib/supabase/types.ts). -/
structure CryptoMetric where
  id : Nat
  date : Nat
  symbol : String
  actual_price : Option ℚ
  predicted_price : Option ℚ
  model_version : String
  confidence_score : Option ℚ
  prediction_lower_bound : Option ℚ
  prediction_upper_bound : Option ℚ
  created_at : Nat
deriving DecidableEq

/-- A point of the chart series (ChartDataPoint in types.ts). -/
structure ChartDataPoint where
  date : Nat
  actual : Option ℚ
  predicted : Option ℚ
  lowerBound : Option ℚ
  upperBound : Option ℚ
deriving DecidableEq

/-- A settled prediction joined with its realized price
(PredictionComparison in types.ts). -/
structure PredictionComparison where
  date : Nat
  predicted : ℚ
  actual : ℚ
  error : ℚ
  errorPercent : ℚ
  confidence : Option ℚ
deriving DecidableEq

/-- Aggregate accuracy metrics (PerformanceMetrics in types.ts). -/
structure PerformanceMetrics where
  mae : ℝ
  rmse : ℝ
  accuracy : ℝ
  totalPredictions : Nat

/-- A failed store read: the error branch of a Supabase response. -/
structure QueryError where
  message : String
deriving DecidableEq

/-- A store read yields an error, or data that may be null. -/
abbrev StoreResponse := Except QueryError (Option (List CryptoMetric))

/-- Ascending order on the date column: .order with ascending true. -/
def dateAsc (a b : CryptoMetric) : Prop := a.date ≤ b.date

/-- Descending order on the date column: .order with ascending false. -/
def dateDesc (a b : CryptoMetric) : Prop := b.date ≤ a.date

instance : DecidableRel dateAsc := fun a b => Nat.decLe a.date b.date

instance : DecidableRel dateDesc := fun a b => Nat.decLe b.date a.date

instance : IsTotal CryptoMetric dateAsc := ⟨fun a b => Nat.le_total a.date b.date⟩

instance : IsTrans CryptoMetric dateAsc := ⟨fun _ _ _ h h2 => Nat.le_trans h h2⟩

instance : IsTotal CryptoMetric dateDesc := ⟨fun a b => Nat.le_total b.date a.date⟩

instance : IsTrans CryptoMetric dateDesc := ⟨fun _ _ _ h h2 => Nat.le_trans h2 h⟩

/-- The .eq filter on the symbol column. -/
def selectBySymbol (store : List CryptoMetric) (symbol : String) : List CryptoMetric :=
  store.filter (fun m => m.symbol == symbol)

/-- The .not predicted_price is null filter. -/
def hasPrediction (m : CryptoMetric) : Bool := m.predicted_price.isSome

/-- The .not actual_price is null filter. -/
def hasActual (m : CryptoMetric) : Bool := m.actual_price.isSome

/-- A settled row: both predicted_price and actual_price are present. -/
def settledRow (m : CryptoMetric) : Bool := m.predicted_price.isSome && m.actual_price.isSome

/-- The query chain of getCryptoMetrics: .eq symbol, .order date ascending,
.limit (days + 1). -/
def cryptoQuery (store : List CryptoMetric) (symbol : String) (days : Nat) : List CryptoMetric :=
  ((selectBySymbol store symbol).insertionSort dateAsc).take (days + 1)

/-- getCryptoMetrics (crypto.ts lines 20 to 40): on a read error it throws
(Impossible de recuperer les donnees), on null data it returns the empty
list, otherwise the query result. -/
def getCryptoMetrics (resp : StoreResponse) (symbol : String) (days : Nat) :
    Except String (List CryptoMetric) :=
  match resp with
  | .error e => .error ("Impossible de récupérer les données: " ++ e.message)
  | .ok none => .ok []
  | .ok (some store) => .ok (cryptoQuery store symbol days)

/-- The locale formatting of formatDate, abstracted to the identity on the
day index (presentation-only renaming). -/
def formatDate (d : Nat) : Nat := d

/-- The per-row projection inside getChartData (crypto.ts lines 53 to 59):
pure field renaming, bounds passed through unchanged. -/
def toChartPoint (m : CryptoMetric) : ChartDataPoint :=
  { date := formatDate m.date
    actual := m.actual_price
    predicted := m.predicted_price
    lowerBound := m.prediction_lower_bound
    upperBound := m.prediction_upper_bound }

/-- getChartData (crypto.ts lines 47 to 60): awaits getCryptoMetrics, so a
thrown error propagates; otherwise maps every row to a chart point. -/
def getChartData (resp : StoreResponse) (symbol : String) (days : Nat) :
    Except String (List ChartDataPoint) :=
  match getCryptoMetrics resp symbol days with
  | .error e => .error e
  | .ok metrics => .ok (metrics.map toChartPoint)

/-- The query chain of getLatestPrediction / getLatestActualPrice:
.eq symbol, a presence filter, .order date descending, .limit 1, .single
(which errors on an empty result, absorbed into none). -/
def latestQuery (store : List CryptoMetric) (symbol : String)
    (p : CryptoMetric → Bool) : Option CryptoMetric :=
  (((selectBySymbol store symbol).filter p).insertionSort dateDesc).head?

/-- getLatestPrediction (crypto.ts lines 65 to 87): read errors become
null. -/
def getLatestPrediction (resp : StoreResponse) (symbol : String) : Option CryptoMetric :=
  match resp with
  | .error _ => none
  | .ok none => none
  | .ok (some store) => latestQuery store symbol hasPrediction

/-- getLatestActualPrice (crypto.ts lines 92 to 114): read errors become
null. -/
def getLatestActualPrice (resp : StoreResponse) (symbol : String) : Option CryptoMetric :=
  match resp with
  | .error _ => none
  | .ok none => none
  | .ok (some store) => latestQuery store symbol hasActual

/-- The query chain of getPredictionHistory: .eq symbol, both presence
filters, .order date descending, .limit limit. -/
def historyQuery (store : List CryptoMetric) (symbol : String) (limit : Nat) :
    List CryptoMetric :=
  (((selectBySymbol store symbol).filter settledRow).insertionSort dateDesc).take limit

/-- The per-row computation of getPredictionHistory (crypto.ts lines 141 to
155).  The non-null assertions on the filtered row are modelled by getD;
the division by the actual price is unguarded, exactly as in the source. -/
def mkComparison (m : CryptoMetric) : PredictionComparison :=
  let predicted := m.predicted_price.getD 0
  let actual := m.actual_price.getD 0
  let predictionError := actual - predicted
  let errorPercent := predictionError / actual * 100
  { date := m.date
    predicted := predicted
    actual := actual
    error := predictionError
    errorPercent := errorPercent
    confidence := m.confidence_score }

/-- getPredictionHistory (crypto.ts lines 121 to 159): read errors and null
data become the empty list, otherwise the settled rows are compared. -/
def getPredictionHistory (resp : StoreResponse) (symbol : String) (limit : Nat) :
    List PredictionComparison :=
  match resp with
  | .error _ => []
  | .ok none => []
  | .ok (some store) => (historyQuery store symbol limit).map mkComparison

/-- JavaScript Math.round: half rounds toward positive infinity. -/
noncomputable def jsRound (x : ℝ) : ℝ := ((⌊x + 1/2⌋ : ℤ) : ℝ)

/-- Math.round (x * 100) / 100: two decimal places. -/
noncomputable def round2 (x : ℝ) : ℝ := jsRound (x * 100) / 100

/-- Math.round (x * 10) / 10: one decimal place. -/
noncomputable def round1 (x : ℝ) : ℝ := jsRound (x * 10) / 10

/-- calculatePerformanceMetrics (crypto.ts lines 164 to 185): mean absolute
error, root mean squared error and the 5 percent hit rate over the settled
history, rounded for display; the empty history short-circuits to zeros. -/
noncomputable def calculatePerformanceMetrics (history : List PredictionComparison) :
    PerformanceMetrics :=
  if history.length = 0 then
    { mae := 0, rmse := 0, accuracy := 0, totalPredictions := 0 }
  else
    let errors := history.map (fun h => |(h.error : ℝ)|)
    let squaredErrors := history.map (fun h => (h.error : ℝ) * (h.error : ℝ))
    let accurateCount := (history.filter (fun h => |h.errorPercent| < 5)).length
    let mae := errors.sum / (errors.length : ℝ)
    let rmse := Real.sqrt (squaredErrors.sum / (squaredErrors.length : ℝ))
    let accuracy := ((accurateCount : ℝ) / (history.length : ℝ)) * 100
    { mae := round2 mae
      rmse := round2 rmse
      accuracy := round1 accuracy
      totalPredictions := history.length }

/-- The arithmetic mean of a list of reals, as written in the spec. -/
noncomputable def listMean (l : List ℝ) : ℝ := l.sum / (l.length : ℝ)

/-- Spec formula: mae equals the mean of the absolute errors. -/
noncomputable def maeSpec (history : List PredictionComparison) : ℝ :=
  listMean (history.map (fun h => |(h.error : ℝ)|))

/-- Spec formula: rmse equals the square root of the mean squared error. -/
noncomputable def rmseSpec (history : List PredictionComparison) : ℝ :=
  Real.sqrt (listMean (history.map (fun h => ((h.error : ℝ)) ^ 2)))

/-- Spec formula: accuracy equals 100 times the count of rows whose absolute
percentage error is strictly below 5, divided by the number of rows. -/
noncomputable def accuracySpec (history : List PredictionComparison) : ℝ :=
  100 * (((history.filter (fun h => |h.errorPercent| < 5)).length : ℝ)) / (history.length : ℝ)

/-- The output record of the Forecaster. -/
structure Forecast where
  predicted_price : ℝ
  prediction_lower_bound : ℝ
  prediction_upper_bound : ℝ
  confidence_score : ℝ

/-- Sum of the time-step indices along a price series, starting at i. -/
def stepSum (i : ℝ) : List ℝ → ℝ
  | [] => 0
  | _ :: ys => i + stepSum (i + 1) ys

/-- Sum of the squared time-step indices along a price series, starting
at i. -/
def stepSqSum (i : ℝ) : List ℝ → ℝ
  | [] => 0
  | _ :: ys => i ^ 2 + stepSqSum (i + 1) ys

/-- Sum of index times price over a price series, the index starting at i. -/
def stepDot (i : ℝ) : List ℝ → ℝ
  | [] => 0
  | y :: ys => i * y + stepDot (i + 1) ys

/-- Sum of squared residuals of the fitted line over a price series, the
index starting at i. -/
def residSqSum (intercept slope i : ℝ) : List ℝ → ℝ
  | [] => 0
  | y :: ys => (y - (intercept + slope * i)) ^ 2 + residSqSum intercept slope (i + 1) ys

/-- Modelled from the spec: the Forecaster (scripts/etl_btc.py, not among
the provided sources).  Ordinary least-squares slope of price against the
integer time steps 0 .. n-1. -/
noncomputable def olsSlope (prices : List ℝ) : ℝ :=
  let n : ℝ := prices.length
  (n * stepDot 0 prices - stepSum 0 prices * prices.sum) /
    (n * stepSqSum 0 prices - stepSum 0 prices ^ 2)

/-- Modelled from the spec: the ordinary least-squares intercept. -/
noncomputable def olsIntercept (prices : List ℝ) : ℝ :=
  (prices.sum - olsSlope prices * stepSum 0 prices) / (prices.length : ℝ)

/-- Modelled from the spec: the sum of squared residuals of the fit. -/
noncomputable def olsSSE (prices : List ℝ) : ℝ :=
  residSqSum (olsIntercept prices) (olsSlope prices) 0 prices

/-- Modelled from the spec: the total sum of squares about the mean. -/
noncomputable def olsSST (prices : List ℝ) : ℝ :=
  (prices.map (fun y => (y - prices.sum / (prices.length : ℝ)) ^ 2)).sum

/-- Modelled from the spec: the coefficient of determination, with a
degenerate zero-variance fit yielding 0 instead of dividing by zero. -/
noncomputable def rSquared (prices : List ℝ) : ℝ :=
  if olsSST prices = 0 then 0 else 1 - olsSSE prices / olsSST prices

/-- Modelled from the spec: the residual standard error of the fit; with
two points the residuals vanish and the value is 0. -/
noncomputable def stdErr (prices : List ℝ) : ℝ :=
  Real.sqrt (olsSSE prices / ((prices.length : ℝ) - 2))

/-- Modelled from the spec: the Forecaster output for the date one step
after the series, the fitted line evaluated at step n, a 1.96 sigma
interval from the residual standard error, and the confidence score the
coefficient of determination clamped to the unit interval. -/
noncomputable def forecaster (prices : List ℝ) : Forecast :=
  let predicted := olsIntercept prices + olsSlope prices * (prices.length : ℝ)
  { predicted_price := predicted
    prediction_lower_bound := predicted - 1.96 * stdErr prices
    prediction_upper_bound := predicted + 1.96 * stdErr prices
    confidence_score := max 0 (min 1 (rSquared prices)) }

/-- Claim C3: calculatePerformanceMetrics on the empty history returns
exactly zero mae, rmse, accuracy and totalPredictions, without failing. -/
theorem claim3_empty_history_metrics :
    calculatePerformanceMetrics [] =
      { mae := 0, rmse := 0, accuracy := 0, totalPredictions := 0 } := rfl

/-- Claim C2, counterexample: on a store read failure getCryptoMetrics does
not return an empty result, it throws, propagating the failure to the
caller. -/
theorem claim2_counterexample_getCryptoMetrics_throws :
    getCryptoMetrics (Except.error ⟨"Database error"⟩) "BTC-USD" 30 =
      Except.error "Impossible de récupérer les données: Database error" := rfl

/-- Claim C2, amended: getLatestPrediction, getLatestActualPrice and
getPredictionHistory absorb a store read failure into null or empty
results, while getCryptoMetrics, and therefore getChartData, propagates
the failure as a thrown error. -/
theorem claim2_amended_read_path_degradation (e : QueryError) (symbol : String)
    (days limit : Nat) :
    getLatestPrediction (Except.error e) symbol = none ∧
    getLatestActualPrice (Except.error e) symbol = none ∧
    getPredictionHistory (Except.error e) symbol limit = [] ∧
    getCryptoMetrics (Except.error e) symbol days =
      Except.error ("Impossible de récupérer les données: " ++ e.message) ∧
    getChartData (Except.error e) symbol days =
      Except.error ("Impossible de récupérer les données: " ++ e.message) :=
  ⟨rfl, rfl, rfl, rfl, rfl⟩

/-- Claim C7: on the perfectly linear three-point series 100, 110, 120 the
Forecaster, an ordinary least-squares fit over integer time steps, predicts
130 for the next step with a confidence interval of width zero and a
confidence score of one. -/
theorem claim7_linear_series_forecast :
    forecaster [100, 110, 120] =
      { predicted_price := 130
        prediction_lower_bound := 130
        prediction_upper_bound := 130
        confidence_score := 1 } := by
  have hslope : olsSlope [100, 110, 120] = 10 := by
    norm_num [olsSlope, stepDot, stepSum, stepSqSum]
  have hint : olsIntercept [100, 110, 120] = 100 := by
    norm_num [olsIntercept, hslope, stepSum]
  have hsse : olsSSE [100, 110, 120] = 0 := by
    norm_num [olsSSE, residSqSum, hint, hslope]
  have hsst : olsSST [100, 110, 120] = 200 := by
    norm_num [olsSST]
  have hrsq : rSquared [100, 110, 120] = 1 := by
    rw [rSquared, if_neg (by rw [hsst]; norm_num)]
    rw [hsse, hsst]
    norm_num
  have hstderr : stdErr [100, 110, 120] = 0 := by
    rw [stdErr, hsse]
    norm_num
  rw [forecaster]
  rw [hint, hslope, hstderr, hrsq]
  norm_num

theorem jsRound_nonneg {x : ℝ} (hx : 0 ≤ x) : 0 ≤ jsRound x := by
  unfold jsRound
  positivity

theorem round2_nonneg {x : ℝ} (hx : 0 ≤ x) : 0 ≤ round2 x := by
  unfold round2 jsRound
  positivity

theorem round1_nonneg {x : ℝ} (hx : 0 ≤ x) : 0 ≤ round1 x := by
  unfold round1 jsRound
  positivity

theorem round1_le_hundred {x : ℝ} (h : x ≤ 100) : round1 x ≤ 100 := by
  unfold round1 jsRound
  have h1 : (⌊x * 10 + 1/2⌋ : ℤ) ≤ ⌊(1000.5 : ℝ)⌋ := Int.floor_le_floor (by linarith)
  have h2 : (⌊(1000.5 : ℝ)⌋ : ℤ) = 1000 := by norm_num
  rw [h2] at h1
  have h3 : ((⌊x * 10 + 1/2⌋ : ℤ) : ℝ) ≤ 1000 := by exact_mod_cast h1
  linarith

/-- Every row surviving the settled-history query chain comes from the
store, carries the requested symbol, and has both prices present. -/
theorem mem_historyQuery {store : List CryptoMetric} {symbol : String} {limit : Nat}
    {m : CryptoMetric} (h : m ∈ historyQuery store symbol limit) :
    m ∈ store ∧ m.symbol = symbol ∧
      (∃ a, m.actual_price = some a) ∧ ∃ p, m.predicted_price = some p := by
  unfold historyQuery at h
  have h1 := List.mem_of_mem_take h
  have h2 : m ∈ (selectBySymbol store symbol).filter settledRow :=
    (List.perm_insertionSort dateDesc _).mem_iff.mp h1
  have h3 : m ∈ selectBySymbol store symbol := List.mem_of_mem_filter h2
  have h4 : settledRow m := List.of_mem_filter h2
  unfold selectBySymbol at h3
  obtain ⟨h5, hbeq⟩ := List.mem_filter.mp h3
  have hbeq2 : (m.symbol == symbol) = true := hbeq
  have h6 : m.symbol = symbol := eq_of_beq hbeq2
  have h7 : m.predicted_price.isSome ∧ m.actual_price.isSome := by
    simpa [settledRow] using h4
  exact ⟨h5, h6, Option.isSome_iff_exists.mp h7.2, Option.isSome_iff_exists.mp h7.1⟩

/-- The settled-history query chain returns rows most recent first. -/
theorem historyQuery_sorted (store : List CryptoMetric) (symbol : String) (limit : Nat) :
    List.Sorted dateDesc (historyQuery store symbol limit) :=
  List.Pairwise.sublist (List.take_sublist _ _) (List.sorted_insertionSort dateDesc _)

/-- Every row surviving the chart query chain comes from the store. -/
theorem mem_cryptoQuery {store : List CryptoMetric} {symbol : String} {days : Nat}
    {m : CryptoMetric} (h : m ∈ cryptoQuery store symbol days) :
    m ∈ store ∧ m.symbol = symbol := by
  unfold cryptoQuery at h
  have h1 := List.mem_of_mem_take h
  have h2 : m ∈ selectBySymbol store symbol :=
    (List.perm_insertionSort dateAsc _).mem_iff.mp h1
  unfold selectBySymbol at h2
  obtain ⟨h5, hbeq⟩ := List.mem_filter.mp h2
  have hbeq2 : (m.symbol == symbol) = true := hbeq
  exact ⟨h5, eq_of_beq hbeq2⟩

/-- Claim C9: for every history list, empty or not,
calculatePerformanceMetrics reports totalPredictions equal to the length of
its input and an accuracy lying between 0 and 100. -/
theorem claim9_totalPredictions_and_accuracy_range (history : List PredictionComparison) :
    (calculatePerformanceMetrics history).totalPredictions = history.length ∧
    0 ≤ (calculatePerformanceMetrics history).accuracy ∧
    (calculatePerformanceMetrics history).accuracy ≤ 100 := by
  by_cases hz : history.length = 0
  · simp [calculatePerformanceMetrics, hz]
  · have hn : (0:ℝ) < history.length := by positivity
    simp only [calculatePerformanceMetrics, if_neg hz]
    refine ⟨trivial, ?_, ?_⟩
    · exact round1_nonneg (by positivity)
    · apply round1_le_hundred
      have hcnt : (history.filter (fun h => |h.errorPercent| < 5)).length ≤ history.length :=
        List.length_filter_le _ _
      have hfrac : ((history.filter (fun h => |h.errorPercent| < 5)).length : ℝ) /
          (history.length : ℝ) ≤ 1 := by
        rw [div_le_one hn]
        exact_mod_cast hcnt
      nlinarith

/-- Claim C1: on a non-empty settled history the computed metrics are the
spec formulas: mae the mean absolute error rounded to 2 decimals, rmse the
root of the mean squared error rounded to 2 decimals, accuracy 100 times
the share of rows with absolute percentage error strictly below five,
rounded to 1 decimal. -/
theorem claim1_metric_formulas (history : List PredictionComparison) (h : history ≠ []) :
    (calculatePerformanceMetrics history).mae = round2 (maeSpec history) ∧
    (calculatePerformanceMetrics history).rmse = round2 (rmseSpec history) ∧
    (calculatePerformanceMetrics history).accuracy = round1 (accuracySpec history) ∧
    (calculatePerformanceMetrics history).totalPredictions = history.length := by
  have hz : ¬ history.length = 0 := by simpa using h
  simp only [calculatePerformanceMetrics, if_neg hz, maeSpec, rmseSpec, accuracySpec,
    listMean, pow_two, List.length_map]
  refine ⟨?_, ?_, ?_, ?_⟩ <;> first
  | trivial
  | rfl
  | (congr 1; ring)

theorem sum_map_const {α : Type} (l : List α) (f : α → ℝ) (c : ℝ)
    (hf : ∀ x ∈ l, f x = c) : (l.map f).sum = c * l.length := by
  induction l with
  | nil => simp
  | cons a t ih =>
    simp only [List.map_cons, List.sum_cons, List.length_cons]
    rw [hf a (List.mem_cons_self a t), ih (fun x hx => hf x (List.mem_cons_of_mem a hx))]
    push_cast
    ring

/-- Claim C6: on a non-empty settled history mae and rmse are nonnegative,
and when every row carries the same absolute error the reported rmse equals
the reported mae. -/
theorem claim6_mae_rmse_relations (history : List PredictionComparison) (h : history ≠ []) :
    0 ≤ (calculatePerformanceMetrics history).mae ∧
    0 ≤ (calculatePerformanceMetrics history).rmse ∧
    ((∀ x ∈ history, ∀ y ∈ history, |x.error| = |y.error|) →
      (calculatePerformanceMetrics history).rmse = (calculatePerformanceMetrics history).mae) := by
  have hz : ¬ history.length = 0 := by simpa using h
  have hn : (0:ℝ) < history.length := by positivity
  simp only [calculatePerformanceMetrics, if_neg hz, List.length_map]
  refine ⟨?_, ?_, ?_⟩
  · apply round2_nonneg
    apply div_nonneg _ (le_of_lt hn)
    apply List.sum_nonneg
    intro x hx
    obtain ⟨y, _, rfl⟩ := List.mem_map.mp hx
    exact abs_nonneg _
  · exact round2_nonneg (Real.sqrt_nonneg _)
  · intro hall
    obtain ⟨x0, hx0⟩ := List.exists_mem_of_ne_nil history h
    have habs : ∀ x ∈ history, |(x.error : ℝ)| = |(x0.error : ℝ)| := by
      intro x hx
      have hq : |x.error| = |x0.error| := hall x hx x0 hx0
      have : ((|x.error| : ℚ) : ℝ) = ((|x0.error| : ℚ) : ℝ) := by exact_mod_cast hq
      push_cast at this
      exact this
    have hsq : ∀ x ∈ history, (x.error : ℝ) * (x.error : ℝ) =
        |(x0.error : ℝ)| * |(x0.error : ℝ)| := by
      intro x hx
      rw [← abs_mul_abs_self, habs x hx]
    have hc0 : (0:ℝ) ≤ |(x0.error : ℝ)| := abs_nonneg _
    rw [sum_map_const history _ _ habs, sum_map_const history _ _ hsq]
    have e1 : |(x0.error : ℝ)| * |(x0.error : ℝ)| * (history.length : ℝ) /
        (history.length : ℝ) = |(x0.error : ℝ)| * |(x0.error : ℝ)| := by
      field_simp
    have e2 : |(x0.error : ℝ)| * (history.length : ℝ) / (history.length : ℝ) =
        |(x0.error : ℝ)| := by
      field_simp
    rw [e1, e2, Real.sqrt_mul_self hc0]

/-- Claim C4: getPredictionHistory keeps only rows with both prices present
for the requested symbol, most recent first, at most limit of them, and on
each computes the signed error actual minus predicted and the percentage
error relative to the actual price. -/
theorem claim4_history_selection_and_error_formulas (store : List CryptoMetric)
    (symbol : String) (limit : Nat) :
    (getPredictionHistory (Except.ok (some store)) symbol limit).length ≤ limit ∧
    List.Sorted (fun a b : PredictionComparison => b.date ≤ a.date)
      (getPredictionHistory (Except.ok (some store)) symbol limit) ∧
    ∀ c ∈ getPredictionHistory (Except.ok (some store)) symbol limit,
      ∃ m ∈ store, m.symbol = symbol ∧ ∃ a p, m.actual_price = some a ∧
        m.predicted_price = some p ∧ c.actual = a ∧ c.predicted = p ∧
        c.error = a - p ∧ c.errorPercent = (a - p) / a * 100 := by
  refine ⟨?_, ?_, ?_⟩
  · show ((historyQuery store symbol limit).map mkComparison).length ≤ limit
    simp only [List.length_map, historyQuery, List.length_take]
    omega
  · show List.Sorted _ ((historyQuery store symbol limit).map mkComparison)
    have hs := historyQuery_sorted store symbol limit
    rw [List.Sorted, List.pairwise_map]
    apply List.Pairwise.imp _ hs
    intro a b hab
    simpa [mkComparison] using hab
  · intro c hc
    have hc2 : c ∈ (historyQuery store symbol limit).map mkComparison := hc
    obtain ⟨m, hm, rfl⟩ := List.mem_map.mp hc2
    obtain ⟨hs, hsym, ⟨a, ha⟩, ⟨p, hp⟩⟩ := mem_historyQuery hm
    exact ⟨m, hs, hsym, a, p, ha, hp, by simp [mkComparison, ha, hp],
      by simp [mkComparison, ha, hp], by simp [mkComparison, ha, hp],
      by simp [mkComparison, ha, hp]⟩

/-- Claim C8: the chart query returns at most days plus one rows in
ascending date order, and the chart series has at most days plus one
points. -/
theorem claim8_chart_series_size (store : List CryptoMetric) (symbol : String) (days : Nat) :
    (cryptoQuery store symbol days).length ≤ days + 1 ∧
    List.Sorted dateAsc (cryptoQuery store symbol days) ∧
    getCryptoMetrics (Except.ok (some store)) symbol days =
      Except.ok (cryptoQuery store symbol days) ∧
    getChartData (Except.ok (some store)) symbol days =
      Except.ok ((cryptoQuery store symbol days).map toChartPoint) ∧
    ((cryptoQuery store symbol days).map toChartPoint).length ≤ days + 1 := by
  refine ⟨?_, ?_, rfl, rfl, ?_⟩
  · simp only [cryptoQuery, List.length_take]
    omega
  · exact List.Pairwise.sublist (List.take_sublist _ _) (List.sorted_insertionSort dateAsc _)
  · simp only [List.length_map, cryptoQuery, List.length_take]
    omega

/-- Claim C5: the chart projection passes both bound fields through
unchanged, null stays null and is never defaulted to zero, and when every
stored row has its bounds both present or both absent, no emitted point has
exactly one bound present. -/
theorem claim5_bounds_passthrough (store : List CryptoMetric) (symbol : String)
    (days : Nat)
    (hinv : ∀ m ∈ store, m.prediction_lower_bound.isSome = m.prediction_upper_bound.isSome) :
    (∀ m : CryptoMetric, (toChartPoint m).lowerBound = m.prediction_lower_bound ∧
        (toChartPoint m).upperBound = m.prediction_upper_bound) ∧
    ∀ pt ∈ (cryptoQuery store symbol days).map toChartPoint,
      pt.lowerBound.isSome = pt.upperBound.isSome := by
  refine ⟨fun m => ⟨rfl, rfl⟩, ?_⟩
  intro pt hpt
  obtain ⟨m, hm, rfl⟩ := List.mem_map.mp hpt
  exact hinv m (mem_cryptoQuery hm).1

/-- Claim C10: the division producing errorPercent is not guarded against a
zero actual price; whenever the actual price is nonzero the computed value
is the genuine quotient, so multiplying back by the actual price recovers
one hundred times the signed error. -/
theorem claim10_errorPercent_division (m : CryptoMetric) (a p : ℚ)
    (ha : m.actual_price = some a) (hp : m.predicted_price = some p) (h0 : a ≠ 0) :
    (mkComparison m).errorPercent = (a - p) / a * 100 ∧
    (mkComparison m).errorPercent * a = (a - p) * 100 := by
  constructor
  · simp [mkComparison, ha, hp]
  · simp only [mkComparison, ha, hp, Option.getD_some]
    field_simp

/-- A pure-history sample row: an actual price, no prediction, no bounds. -/
def sampleHistoryRow : CryptoMetric :=
  { id := 1
    date := 15
    symbol := "BTC-USD"
    actual_price := some 42000
    predicted_price := none
    model_version := "v1"
    confidence_score := none
    prediction_lower_bound := none
    prediction_upper_bound := none
    created_at := 15 }

/-- A settled sample row with both prices and both bounds present. -/
def sampleSettled : CryptoMetric :=
  { id := 2
    date := 16
    symbol := "BTC-USD"
    actual_price := some 43000
    predicted_price := some 43500
    model_version := "v1"
    confidence_score := some (85/100)
    prediction_lower_bound := some 42000
    prediction_upper_bound := some 45000
    created_at := 16 }

/-- A two-row sample store. -/
def sampleStore : List CryptoMetric := [sampleHistoryRow, sampleSettled]

/-- A one-row settled history. -/
def sampleHistory : List PredictionComparison :=
  [{ date := 15
     predicted := 42000
     actual := 42500
     error := 500
     errorPercent := 20/17
     confidence := some (85/100) }]

/-- A two-row settled history whose rows share the same absolute error. -/
def sampleEqualErrors : List PredictionComparison :=
  [{ date := 15
     predicted := 42000
     actual := 42003
     error := 3
     errorPercent := 1/140
     confidence := none },
   { date := 16
     predicted := 43003
     actual := 43000
     error := -3
     errorPercent := -(1/143)
     confidence := none }]

/-- Witness for claim C1 at the one-row history. -/
theorem claim1_metric_formulas_witness :
    sampleHistory ≠ [] ∧
    ((calculatePerformanceMetrics sampleHistory).mae = round2 (maeSpec sampleHistory) ∧
      (calculatePerformanceMetrics sampleHistory).rmse = round2 (rmseSpec sampleHistory) ∧
      (calculatePerformanceMetrics sampleHistory).accuracy = round1 (accuracySpec sampleHistory) ∧
      (calculatePerformanceMetrics sampleHistory).totalPredictions = sampleHistory.length) :=
  ⟨by decide, claim1_metric_formulas sampleHistory (by decide)⟩

/-- Witness for claim C6 at the equal-absolute-error history. -/
theorem claim6_mae_rmse_relations_witness :
    sampleEqualErrors ≠ [] ∧
    (0 ≤ (calculatePerformanceMetrics sampleEqualErrors).mae ∧
      0 ≤ (calculatePerformanceMetrics sampleEqualErrors).rmse ∧
      ((∀ x ∈ sampleEqualErrors, ∀ y ∈ sampleEqualErrors, |x.error| = |y.error|) →
        (calculatePerformanceMetrics sampleEqualErrors).rmse =
          (calculatePerformanceMetrics sampleEqualErrors).mae)) :=
  ⟨by decide, claim6_mae_rmse_relations sampleEqualErrors (by decide)⟩

/-- Witness for claim C4 at the two-row sample store. -/
theorem claim4_history_selection_witness :
    (getPredictionHistory (Except.ok (some sampleStore)) "BTC-USD" 14).length ≤ 14 ∧
    List.Sorted (fun a b : PredictionComparison => b.date ≤ a.date)
      (getPredictionHistory (Except.ok (some sampleStore)) "BTC-USD" 14) ∧
    ∀ c ∈ getPredictionHistory (Except.ok (some sampleStore)) "BTC-USD" 14,
      ∃ m ∈ sampleStore, m.symbol = "BTC-USD" ∧ ∃ a p, m.actual_price = some a ∧
        m.predicted_price = some p ∧ c.actual = a ∧ c.predicted = p ∧
        c.error = a - p ∧ c.errorPercent = (a - p) / a * 100 :=
  claim4_history_selection_and_error_formulas sampleStore "BTC-USD" 14

/-- Witness for claim C5 at the two-row sample store, whose rows satisfy
the both-or-neither bound invariant. -/
theorem claim5_bounds_passthrough_witness :
    (∀ m ∈ sampleStore, m.prediction_lower_bound.isSome = m.prediction_upper_bound.isSome) ∧
    ((∀ m : CryptoMetric, (toChartPoint m).lowerBound = m.prediction_lower_bound ∧
        (toChartPoint m).upperBound = m.prediction_upper_bound) ∧
      ∀ pt ∈ (cryptoQuery sampleStore "BTC-USD" 30).map toChartPoint,
        pt.lowerBound.isSome = pt.upperBound.isSome) :=
  ⟨by decide, claim5_bounds_passthrough sampleStore "BTC-USD" 30 (by decide)⟩

/-- Witness for claim C10 at the settled sample row, whose actual price is
nonzero. -/
theorem claim10_errorPercent_division_witness :
    (sampleSettled.actual_price = some 43000 ∧
      sampleSettled.predicted_price = some 43500 ∧ (43000 : ℚ) ≠ 0) ∧
    ((mkComparison sampleSettled).errorPercent = ((43000 : ℚ) - 43500) / 43000 * 100 ∧
      (mkComparison sampleSettled).errorPercent * 43000 = ((43000 : ℚ) - 43500) * 100) :=
  ⟨⟨rfl, rfl, by decide⟩,
    claim10_errorPercent_division sampleSettled 43000 43500 rfl rfl (by decide)⟩
